import Mathlib

/-!
# Verification of the email-verifier pipeline

Shallow embedding of the classification pipeline of the `email-verifier`
repository.  Three variants exist in the source tree and are embedded
separately:

* `EV` — `src/email_verifier.py` (CLI pipeline; `src/backend/email_verifier.py`
  is near-identical, the differences that matter are embedded under `BE`);
* `BE` — `src/backend/email_verifier.py` together with the progress
  bookkeeping of `src/backend/main.py`;
* `VL` — `src/app/verify_lib.py` and `src/app/worker.py`.

External effects (the `email_validator` library, `tldextract`'s
registered-domain computation, DNS answers, the bytes read from an SMTP
session, and sqlite success/failure) are passed in as explicit oracle
arguments, so every definition is a total executable function of the
source code's decision logic over those oracles.  Python string methods
are modelled by structural recursion over the character list in the `Py`
namespace.
-/

namespace Py

/-- Python `s.split(sep, 1)` indexed at `[1]`: `none` when `sep` is
absent (subscripting then raises `IndexError`), otherwise the characters
strictly before and strictly after the first occurrence of `sep`. -/
def splitAtFirst (sep : Char) : List Char → Option (List Char × List Char)
  | [] => none
  | c :: cs =>
    if c = sep then some ([], cs)
    else
      match splitAtFirst sep cs with
      | none => none
      | some (l, r) => some (c :: l, r)

/-- Python `str.lower()` on ASCII text. -/
def lower (s : String) : String := ⟨s.data.map Char.toLower⟩

/-- Python `str.strip()`: whitespace removed from both ends. -/
def strip (s : String) : String :=
  ⟨(((s.data.dropWhile Char.isWhitespace).reverse).dropWhile
      Char.isWhitespace).reverse⟩

/-- Python `s.startswith(p)`. -/
def startsWith (s p : String) : Bool := p.data.isPrefixOf s.data

/-- Python `sep.join(xs)`. -/
def join (sep : String) : List String → String
  | [] => ""
  | [x] => x
  | x :: y :: xs => x ++ sep ++ join sep (y :: xs)

end Py

namespace EV

/-- `DISPOSABLE_DOMAINS` of `src/email_verifier.py`. -/
def DISPOSABLE_DOMAINS : List String :=
  ["mailinator.com", "10minutemail.com", "yopmail.com", "guerrillamail.com",
   "trashmail.com", "tempmail.com", "tempmail.net", "getnada.com", "dispostable.com"]

/-- `domain_from_email` of `src/email_verifier.py`:
`email.split("@", 1)[1].lower()`.  With no `@` present the Python raises
`IndexError`; that outcome is `none`. -/
def domain_from_email (email : String) : Option String :=
  match Py.splitAtFirst '@' email.data with
  | none => none
  | some (_, rest) => some (Py.lower ⟨rest⟩)

/-- `is_disposable` of `src/email_verifier.py`.  `ext` is the
`tldextract.extract(domain).registered_domain` oracle; the Python
`base = ... or domain` falls back to `domain` when the oracle yields the
empty (falsy) string. -/
def is_disposable (ext : String → String) (domain : String) : Bool :=
  let base := if ext domain = "" then domain else ext domain
  DISPOSABLE_DOMAINS.contains base

/-- Outcome of the network interaction inside `smtp_probe`: either some
exception was raised (connect failure, timeout, protocol error — all land
in the `except` clause), or the session reached the final `RCPT TO` read
and `resp` is that stripped response line. -/
inductive NetOutcome where
  | exn
  | resp (r : String)
deriving Repr, DecidableEq

/-- `smtp_probe` of `src/email_verifier.py` (the copy in
`src/backend/email_verifier.py` is character-identical).  The verdict
depends only on the final `RCPT TO` response line:
`resp.startswith("250")` ⇒ `active`, `startswith("550"/"551")` ⇒
`inactive`, anything else ⇒ `unknown`; every exception is caught and
yields `unknown`. -/
def smtp_probe (mx_host email : String) (net : NetOutcome) : String :=
  match mx_host, email, net with
  | _, _, .exn => "unknown"
  | _, _, .resp r =>
    if Py.startsWith r "250" then "active"
    else if Py.startsWith r "550" || Py.startsWith r "551" then "inactive"
    else "unknown"

/-- `resolve_mx` of `src/email_verifier.py`.  `outcome` is the DNS oracle:
`none` when `dns.resolver.resolve` raises (NXDOMAIN, timeout, no answer),
`some hosts` when it returns exchanger hostnames.  Any failure is caught
and becomes the explicit pair `(domain, [])`. -/
def resolve_mx (outcome : Option (List String)) (domain : String) :
    String × List String :=
  match outcome with
  | none => (domain, [])
  | some hosts => (domain, hosts)

/-- `resolve_mx_bulk` of `src/email_verifier.py`: one `resolve_mx` call per
domain, the results collected into a map keyed by domain. -/
def resolve_mx_bulk (outcomes : String → Option (List String))
    (domains : List String) : List (String × List String) :=
  domains.map (fun d => resolve_mx (outcomes d) d)

/-- One row of the sqlite `cache` table (the `last_checked` timestamp is
not consulted by any decision, so it is omitted). -/
structure CacheRow where
  verdict : String
  reason : String
  active_status : String
  mx_domain : Option String
deriving Repr, DecidableEq

/-- The verdict cache, email → row. -/
def Cache : Type := String → Option CacheRow

/-- `read_cache` of `src/email_verifier.py`: the whole body is wrapped in
`try/except` returning `None`, so a failing store (`ok = false`) reads as
a miss. -/
def read_cache (ok : Bool) (db : Cache) (email : String) : Option CacheRow :=
  if ok then db email else none

/-- `write_cache` of `src/email_verifier.py`: `INSERT OR REPLACE` under
`try/except: pass`, so a failing store (`ok = false`) leaves the cache
unchanged and the failure is absorbed. -/
def write_cache (ok : Bool) (db : Cache) (email : String) (c : CacheRow) :
    Cache :=
  if ok then (fun e => if e = email then some c else db e) else db

/-- The dict returned by `classify_email`. -/
structure Row where
  email : String
  verdict : String
  reason : String
  active_status : String
deriving Repr, DecidableEq

/-- Observable network side effects of one `classify_email` call (the MX
map handed to `classify_email` is a pre-resolved dict, so the only network
call it can make is the SMTP probe). -/
inductive Eff where
  | probe (host email : String)
deriving Repr, DecidableEq

/-- Result of one `classify_email` call: the returned dict (`none` when an
uncaught exception escapes), the verdict cache afterwards, and the network
effects performed. -/
structure Outcome where
  result : Option Row
  cache : Cache
  effs : List Eff

/-- `classify_email` of `src/email_verifier.py`.  Oracles: `valid` models
`validate_email` (false = raises `EmailNotValidError`), `ext` models
`tldextract`, `mx_cache` is the pre-resolved MX dict (`.get(domain, [])`
semantics — absent keys are the empty list), `probe` models the status
string returned by `smtp_probe` for a host/address pair, `rOk`/`wOk`
model sqlite success for reads/writes. -/
def classify_email (valid : String → Bool) (ext : String → String)
    (mx_cache : String → List String) (probe : String → String → String)
    (rOk wOk : Bool) (db : Cache) (premium : Bool) (email0 : String) :
    Outcome :=
  let email := Py.strip (Py.lower email0)
  match read_cache rOk db email with
  | some c =>
    { result := some ⟨email, c.verdict, c.reason, c.active_status⟩
      cache := db, effs := [] }
  | none =>
    if valid email = false then
      { result := some ⟨email, "bad", "invalid", "inactive"⟩
        cache := write_cache wOk db email ⟨"bad", "invalid", "inactive", none⟩
        effs := [] }
    else
      match domain_from_email email with
      | none => { result := none, cache := db, effs := [] }
      | some domain =>
        if is_disposable ext domain then
          { result := some ⟨email, "risky", "disposable", "unknown"⟩
            cache := write_cache wOk db email
              ⟨"risky", "disposable", "unknown", some domain⟩
            effs := [] }
        else
          match mx_cache domain with
          | [] =>
            { result := some ⟨email, "bad", "no-mx", "inactive"⟩
              cache := write_cache wOk db email
                ⟨"bad", "no-mx", "inactive", some domain⟩
              effs := [] }
          | h :: _ =>
            if premium then
              let status := probe h email
              if status = "active" then
                { result := some ⟨email, "good", "smtp-active", "active"⟩
                  cache := write_cache wOk db email
                    ⟨"good", "smtp-active", "active", some domain⟩
                  effs := [.probe h email] }
              else if status = "inactive" then
                { result := some ⟨email, "bad", "smtp-reject", "inactive"⟩
                  cache := write_cache wOk db email
                    ⟨"bad", "smtp-reject", "inactive", some domain⟩
                  effs := [.probe h email] }
              else
                { result := some ⟨email, "risky", "smtp-unknown", "unknown"⟩
                  cache := write_cache wOk db email
                    ⟨"risky", "smtp-unknown", "unknown", some domain⟩
                  effs := [.probe h email] }
            else
              { result := some ⟨email, "good", "syntax+mx", "unknown"⟩
                cache := write_cache wOk db email
                  ⟨"good", "syntax+mx", "unknown", some domain⟩
                effs := [] }

/-- The CSV header written by `run_verification` of
`src/email_verifier.py` (the backend copy writes the same list). -/
def csv_fieldnames : List String :=
  ["email", "verdict", "reason", "active_status"]

end EV

namespace BE

/-- `domain_from_email` of `src/backend/email_verifier.py`: the same
split, but the `IndexError` of a missing `@` is caught and turned into
the empty string. -/
def domain_from_email (email : String) : String :=
  match Py.splitAtFirst '@' email.data with
  | none => ""
  | some (_, rest) => Py.lower ⟨rest⟩

/-- The per-job progress dict of `src/backend/main.py`
(`PROGRESS[job_id]`). -/
structure JobProgress where
  done : Nat
  total : Nat
  status : String
  error : Option String
deriving Repr, DecidableEq

/-- The entry created by the `/upload` endpoint of `src/backend/main.py`:
`{"done": 0, "total": 0, "status": "running", "error": None}`. -/
def initProgress : JobProgress :=
  { done := 0, total := 0, status := "running", error := none }

/-- `PROGRESS[job_id]["done"] += 1` — executed once per completed future
in the `as_completed` loop of `run_verification`
(`src/backend/email_verifier.py`). -/
def stepDone (p : JobProgress) : JobProgress :=
  { p with done := p.done + 1 }

/-- The successive progress states produced by the `as_completed` loop:
one `stepDone` per submitted address. -/
def loopStates (p : JobProgress) : List String → List JobProgress
  | [] => []
  | _ :: es => stepDone p :: loopStates (stepDone p) es

/-- The progress state left behind by the `as_completed` loop: one
`stepDone` per submitted address. -/
def loopFinal (p : JobProgress) : List String → JobProgress
  | [] => p
  | _ :: es => loopFinal (stepDone p) es

/-- `emails = list(set(emails))` of `run_verification` — one copy of each
distinct address. -/
def dedup (l : List String) : List String := l.eraseDups

/-- The progress bookkeeping of `run_verification` in
`src/backend/email_verifier.py` (the classification work itself is
irrelevant to the counters): dedup the addresses, set
`progress_store[job_id]["total"]` to their count before dispatch, then
run the completion loop.  Returns the state after the `total` write
followed by each state after a `done` increment. -/
def run_verification_progress (emails0 : List String) (p : JobProgress) :
    List JobProgress :=
  let emails := dedup emails0
  let p1 := { p with total := emails.length }
  p1 :: loopStates p1 emails

/-- `run_verifier` of `src/backend/main.py`, progress view: starts from
the `/upload`-initialised entry, runs `email_verifier.main` (whose
progress effect is `run_verification_progress`), then sets
`PROGRESS[job_id]["status"] = "done"`.  Input discovery is abstracted by
`inputFound`; when the input is missing `run_verification` flags the
error status itself and returns.  The full trace of progress states is
returned, the last one being the terminal state. -/
def run_verifier (emails0 : List String) (inputFound : Bool) :
    List JobProgress :=
  if inputFound then
    let emails := dedup emails0
    let p1 := { initProgress with total := emails.length }
    let pEnd := loopFinal p1 emails
    initProgress :: run_verification_progress emails0 initProgress
      ++ [{ pEnd with status := "done" }]
  else
    [initProgress,
     { initProgress with status := "error",
                         error := some "Input file or directory not found" }]

end BE

namespace VL

/-- `DISPOSABLE_DOMAINS` of `src/app/verify_lib.py`. -/
def DISPOSABLE_DOMAINS : List String :=
  ["mailinator.com", "10minutemail.com", "yopmail.com", "trashmail.com"]

/-- The special characters of the local part of `EMAIL_REGEX`
(`src/app/verify_lib.py`), listed by code point: dot, `!`, `#`, `$`,
`%`, `&`, apostrophe, `*`, `+`, slash, `=`, `?`, caret, underscore,
backquote, left brace, pipe, right brace, tilde, hyphen. -/
def localSpecials : List Char :=
  [46, 33, 35, 36, 37, 38, 39, 42, 43, 47, 61, 63, 94, 95, 96, 123, 124,
   125, 126, 45].map Char.ofNat

/-- Membership in the local-part character class of `EMAIL_REGEX`. -/
def isLocalChar (c : Char) : Bool :=
  c.isAlphanum || localSpecials.contains c

/-- Membership in the domain character class `[A-Za-z0-9.-]` of
`EMAIL_REGEX`. -/
def isDomainChar (c : Char) : Bool :=
  c.isAlphanum || c = '.' || c = '-'

/-- `is_syntax_valid` of `src/app/verify_lib.py`:
`EMAIL_REGEX.fullmatch(email)` for the pattern
`local+ @ [A-Za-z0-9.-]+ \. [A-Za-z]{2,}`.  A full match forces exactly
one `@` (no character class contains `@`); after the `@`, the top-level
label is everything past the last dot (the `[A-Za-z]{2,}` tail admits no
dot) and must be at least two ASCII letters, with a non-empty
`[A-Za-z0-9.-]+` part before that dot.  The split at the last dot is the
split at the first dot of the reversed domain. -/
def is_syntax_valid (email : String) : Bool :=
  match Py.splitAtFirst '@' email.data with
  | none => false
  | some (lp, dom) =>
    !lp.isEmpty && lp.all isLocalChar &&
    (match Py.splitAtFirst '.' dom.reverse with
     | none => false
     | some (tldRev, beforeRev) =>
       let tld := tldRev.reverse
       let before := beforeRev.reverse
       !before.isEmpty && before.all isDomainChar &&
       decide (2 ≤ tld.length) && tld.all Char.isAlpha)

/-- `domain_from_email` of `src/app/verify_lib.py` — identical to the CLI
variant: `email.split('@', 1)[1].lower()`, `none` models the
`IndexError` raised when no `@` is present. -/
def domain_from_email (email : String) : Option String :=
  match Py.splitAtFirst '@' email.data with
  | none => none
  | some (_, rest) => some (Py.lower ⟨rest⟩)

/-- `is_disposable_domain` of `src/app/verify_lib.py`.  `ext` is the
`tldextract.extract(domain).registered_domain` oracle; unlike the CLI
variant there is no `or domain` fallback. -/
def is_disposable_domain (ext : String → String) (domain : String) : Bool :=
  DISPOSABLE_DOMAINS.contains (ext domain)

/-- `has_mx_record` of `src/app/verify_lib.py`: `dns.resolver.resolve`
under `try/except`; the oracle outcome is `some answers` on success and
`none` on any exception, the function returns success as a Bool. -/
def has_mx_record (resolve : String → Option (List String))
    (domain : String) : Bool :=
  (resolve domain).isSome

/-- The dict returned by `classify_email` of `src/app/verify_lib.py`. -/
structure VRow where
  email : String
  verdict : String
  reasons : List String
deriving Repr, DecidableEq

/-- `classify_email` of `src/app/verify_lib.py`.  `none` models an
uncaught exception (the `IndexError` of `domain_from_email`, unreachable
after a successful syntax check). -/
def classify_email (ext : String → String)
    (resolve : String → Option (List String)) (email : String) :
    Option VRow :=
  let e := Py.lower (Py.strip email)
  if is_syntax_valid e = false then
    some ⟨e, "bad", ["invalid-syntax"]⟩
  else
    match domain_from_email e with
    | none => none
    | some domain =>
      let reasons :=
        (if is_disposable_domain ext domain then ["disposable-domain"] else [])
        ++ (if has_mx_record resolve domain = false then ["no-mx-record"] else [])
      if reasons.contains "no-mx-record" then
        some ⟨e, "bad", reasons⟩
      else if reasons.contains "disposable-domain" then
        some ⟨e, "risky", reasons⟩
      else
        some ⟨e, "risky", ["inconclusive"]⟩

end VL

namespace Worker

/-- The row dict built by `process_file` of `src/app/worker.py` for each
classified address: the reasons list is semicolon-joined. -/
def rowOf (e : String) (r : VL.VRow) : String × String × String :=
  (e, r.verdict, Py.join ";" r.reasons)

/-- The CSV header written by `process_file` of `src/app/worker.py`. -/
def csv_fieldnames : List String :=
  ["email", "verdict", "reasons"]

end Worker

/-- Modelled from the spec: the error of `domain_of(address)` — "fails
with `MalformedAddress` if no `@` is present". -/
inductive DomainErr where
  | malformedAddress
deriving Repr, DecidableEq

/-- Modelled from the spec: `domain_of(address) -> Domain` "splits on the
first `@`; fails with `MalformedAddress` if no `@` is present", the
domain being the substring after the first `@`, lowercased.  Written for
comparison with the three `domain_from_email` implementations. -/
def spec_domain_of (e : String) : Except DomainErr String :=
  match Py.splitAtFirst '@' e.data with
  | none => Except.error DomainErr.malformedAddress
  | some (_, rest) => Except.ok (Py.lower ⟨rest⟩)

/-- Modelled from the spec: the job CSV column contract
`email, verdict, active_status, reasons`.  Written for comparison with
the headers the code writes. -/
def spec_job_fieldnames : List String :=
  ["email", "verdict", "active_status", "reasons"]

/-- Modelled from the spec: the per-source-file CSV column contract
`filename, email, verdict, active_status, reasons`. -/
def spec_perfile_fieldnames : List String :=
  ["filename", "email", "verdict", "active_status", "reasons"]

/-- Modelled from the spec: "a response code in the 2xx range" — an SMTP
response line whose three-digit code starts with `2`. -/
def spec_code_in_2xx (r : String) : Bool :=
  match r.data with
  | c1 :: c2 :: c3 :: _ => c1 = '2' && c2.isDigit && c3.isDigit
  | _ => false

/-- C8: on any resolution failure (the DNS oracle raised), `resolve_mx`
returns the explicit pair of the queried domain and an empty exchanger
list instead of propagating the exception, and `resolve_mx_bulk` stores
that result in its map like any successful one. -/
theorem resolve_mx_failure_is_empty (domain : String)
    (outcomes : String → Option (List String)) :
    EV.resolve_mx none domain = (domain, [])
    ∧ (∀ out, (EV.resolve_mx out domain).1 = domain)
    ∧ EV.resolve_mx_bulk outcomes [domain] =
        [(domain, (EV.resolve_mx (outcomes domain) domain).2)] := by
  refine ⟨rfl, fun out => ?_, ?_⟩
  · cases out <;> rfl
  · show [EV.resolve_mx (outcomes domain) domain] = _
    cases h : outcomes domain <;> simp [EV.resolve_mx]

/-- C7 counterexample: neither CSV written by the code has the claimed
column set.  `run_verification` writes `email, verdict, reason,
active_status` (a single `reason` column, third position), and
`process_file` writes `email, verdict, reasons` with no `filename` and
no `active_status` column. -/
theorem csv_fieldnames_counterexample :
    EV.csv_fieldnames ≠ spec_job_fieldnames
    ∧ Worker.csv_fieldnames ≠ spec_perfile_fieldnames
    ∧ Worker.csv_fieldnames ≠ spec_job_fieldnames := by
  refine ⟨by decide, by decide, by decide⟩

/-- C7 amended: the job CSV of `run_verification` has the fixed header
`email, verdict, reason, active_status` (one reason code, not a joined
list), and the per-source-file CSV of `process_file` has the fixed
header `email, verdict, reasons` whose `reasons` field is the
semicolon-joined reason list. -/
theorem csv_fieldnames_amended :
    EV.csv_fieldnames = ["email", "verdict", "reason", "active_status"]
    ∧ Worker.csv_fieldnames = ["email", "verdict", "reasons"]
    ∧ (∀ e v r₁ r₂, Worker.rowOf e ⟨e, v, [r₁, r₂]⟩ = (e, v, r₁ ++ ";" ++ r₂))
    ∧ Worker.rowOf "x@mailinator.com"
        ⟨"x@mailinator.com", "bad", ["disposable-domain", "no-mx-record"]⟩ =
        ("x@mailinator.com", "bad", "disposable-domain;no-mx-record") :=
  ⟨rfl, rfl, fun _ _ _ _ => rfl, by decide⟩

/-- C9 counterexample: on the `@`-free input `"nodomain"` no variant of
`domain_from_email` fails with a `MalformedAddress` error as the claim
states: the backend variant returns the ordinary value `""`, and the CLI
and app variants raise a bare `IndexError` (embedded as `none`), while
the spec's `domain_of` demands `MalformedAddress`. -/
theorem domain_of_missing_at_counterexample :
    BE.domain_from_email "nodomain" = ""
    ∧ EV.domain_from_email "nodomain" = none
    ∧ VL.domain_from_email "nodomain" = none
    ∧ spec_domain_of "nodomain" = Except.error DomainErr.malformedAddress :=
  ⟨by decide, by decide, by decide, rfl⟩

/-- C9 amended: for inputs containing `@`, all three `domain_from_email`
variants return the substring after the first `@`, lowercased, agreeing
with the spec's `domain_of`; for inputs with no `@`, the CLI and app
variants raise an uncaught `IndexError` (not a `MalformedAddress`
failure) and the backend variant returns the empty string. -/
theorem domain_of_amended (e : String) :
    match spec_domain_of e with
    | Except.ok d =>
        EV.domain_from_email e = some d ∧ VL.domain_from_email e = some d
          ∧ BE.domain_from_email e = d
    | Except.error _ =>
        EV.domain_from_email e = none ∧ VL.domain_from_email e = none
          ∧ BE.domain_from_email e = "" := by
  rcases h : Py.splitAtFirst '@' e.data with _ | ⟨l, r⟩ <;>
    simp [spec_domain_of, EV.domain_from_email, VL.domain_from_email,
      BE.domain_from_email, h]

/-- C2 counterexample: the SMTP response `251 User not local` carries a
code in the 2xx range, yet `smtp_probe` reports `unknown`, not `active`
— the code only recognises lines starting with `250`. -/
theorem smtp_probe_2xx_counterexample :
    spec_code_in_2xx "251 User not local" = true
    ∧ EV.smtp_probe "mx.example.com" "user@example.com"
        (EV.NetOutcome.resp "251 User not local") = "unknown"
    ∧ ("unknown" : String) ≠ "active" := by
  refine ⟨by decide, by decide, by decide⟩

/-- C2 amended: `smtp_probe` always returns one of `active`, `inactive`,
`unknown` and never propagates an exception (every exception outcome
maps to `unknown`); a response line starting with `250` yields `active`;
one starting with `550` or `551` yields `inactive`; every other response
line — including other 2xx codes — yields `unknown`. -/
theorem smtp_probe_policy_amended (mx_host email : String)
    (net : EV.NetOutcome) :
    (EV.smtp_probe mx_host email net = "active"
      ∨ EV.smtp_probe mx_host email net = "inactive"
      ∨ EV.smtp_probe mx_host email net = "unknown")
    ∧ EV.smtp_probe mx_host email EV.NetOutcome.exn = "unknown"
    ∧ (∀ r, Py.startsWith r "250" = true →
        EV.smtp_probe mx_host email (EV.NetOutcome.resp r) = "active")
    ∧ (∀ r, Py.startsWith r "250" = false →
        (Py.startsWith r "550" || Py.startsWith r "551") = true →
        EV.smtp_probe mx_host email (EV.NetOutcome.resp r) = "inactive")
    ∧ (∀ r, Py.startsWith r "250" = false →
        (Py.startsWith r "550" || Py.startsWith r "551") = false →
        EV.smtp_probe mx_host email (EV.NetOutcome.resp r) = "unknown") := by
  refine ⟨?_, rfl, ?_, ?_, ?_⟩
  · cases net with
    | exn => exact Or.inr (Or.inr rfl)
    | resp r =>
      simp only [EV.smtp_probe]
      split
      · exact Or.inl rfl
      · split
        · exact Or.inr (Or.inl rfl)
        · exact Or.inr (Or.inr rfl)
  · intro r h; simp [EV.smtp_probe, h]
  · intro r h₁ h₂; simp [EV.smtp_probe, h₁, h₂]
  · intro r h₁ h₂; simp [EV.smtp_probe, h₁, h₂]

/-- Witness for the amended C2 theorem at concrete response lines. -/
theorem smtp_probe_policy_amended_witness :
    EV.smtp_probe "mx.example.com" "user@example.com"
        (EV.NetOutcome.resp "250 OK") = "active"
    ∧ EV.smtp_probe "mx.example.com" "user@example.com"
        (EV.NetOutcome.resp "550 mailbox unavailable") = "inactive"
    ∧ EV.smtp_probe "mx.example.com" "user@example.com"
        (EV.NetOutcome.resp "451 try again later") = "unknown" :=
  ⟨(smtp_probe_policy_amended "mx.example.com" "user@example.com"
      (EV.NetOutcome.resp "250 OK")).2.2.1 "250 OK" (by decide),
   (smtp_probe_policy_amended "mx.example.com" "user@example.com"
      (EV.NetOutcome.resp "550 mailbox unavailable")).2.2.2.1
      "550 mailbox unavailable" (by decide) (by decide),
   (smtp_probe_policy_amended "mx.example.com" "user@example.com"
      (EV.NetOutcome.resp "451 try again later")).2.2.2.2
      "451 try again later" (by decide) (by decide)⟩

/-- Helper: the result and effect trace of `classify_email` do not depend
on the verdict store beyond the value the initial cache read produced —
in particular not on whether later writes succeed. -/
theorem classify_store_independent
    (valid : String → Bool) (ext : String → String)
    (mx : String → List String) (probe : String → String → String)
    (rOk wOk rOk' wOk' : Bool) (db db' : EV.Cache) (premium : Bool)
    (email0 : String)
    (hread : EV.read_cache rOk db (Py.strip (Py.lower email0))
           = EV.read_cache rOk' db' (Py.strip (Py.lower email0))) :
    (EV.classify_email valid ext mx probe rOk wOk db premium email0).result
      = (EV.classify_email valid ext mx probe rOk' wOk' db' premium email0).result
    ∧ (EV.classify_email valid ext mx probe rOk wOk db premium email0).effs
      = (EV.classify_email valid ext mx probe rOk' wOk' db' premium email0).effs := by
  simp only [EV.classify_email]
  rw [hread]
  cases h : EV.read_cache rOk' db' (Py.strip (Py.lower email0)) with
  | none =>
    simp only [h]
    refine ⟨?_, ?_⟩ <;> (repeat' (first | rfl | split))
  | some c => simp [h]

/-- Helper: after the `as_completed` loop the `done` counter has grown by
exactly the number of submitted addresses. -/
theorem loopFinal_done (p : BE.JobProgress) (l : List String) :
    BE.loopFinal p l = { p with done := p.done + l.length } := by
  induction l generalizing p with
  | nil => simp [BE.loopFinal]
  | cons x xs ih =>
    simp only [BE.loopFinal, ih, BE.stepDone, List.length_cons,
      BE.JobProgress.mk.injEq, and_true, true_and]
    omega

/-- Helper: the loop publishes exactly one progress state per address. -/
theorem loopStates_length (p : BE.JobProgress) (l : List String) :
    (BE.loopStates p l).length = l.length := by
  induction l generalizing p with
  | nil => simp [BE.loopStates]
  | cons x xs ih => simp [BE.loopStates, ih]

/-- Helper: along the loop's published states, each `done` counter is the
previous one plus one. -/
theorem loopStates_chain (p : BE.JobProgress) (l : List String) :
    List.Chain' (fun a b => b.done = a.done + 1) (p :: BE.loopStates p l) := by
  induction l generalizing p with
  | nil => simp [BE.loopStates]
  | cons x xs ih =>
    simp only [BE.loopStates]
    exact List.chain'_cons.2 ⟨rfl, ih (BE.stepDone p)⟩

/-- Helper: every state the loop publishes keeps the `total`, `status`
and `error` fields and never pushes `done` past the submitted count. -/
theorem loopStates_mem (p : BE.JobProgress) (l : List String) :
    ∀ s ∈ BE.loopStates p l,
      s.total = p.total ∧ s.done ≤ p.done + l.length
        ∧ s.status = p.status ∧ s.error = p.error := by
  induction l generalizing p with
  | nil => simp [BE.loopStates]
  | cons x xs ih =>
    intro s hs
    simp only [BE.loopStates, List.mem_cons] at hs
    rcases hs with rfl | hs
    · exact ⟨rfl, by simp only [BE.stepDone, List.length_cons]; omega, rfl, rfl⟩
    · obtain ⟨h1, h2, h3, h4⟩ := ih (BE.stepDone p) s hs
      refine ⟨h1, ?_, h3, h4⟩
      simp only [BE.stepDone] at h2
      simp only [List.length_cons]
      omega

/-- C1 counterexample: in the CLI classifier `classify_email`
(`src/email_verifier.py`), an address on a disposable domain whose MX
map is empty is classified `risky` with sole reason `disposable` — the
disposable check is terminal before the MX step, so the claimed
`bad`/no-MX outcome with the disposable reason preserved never arises
there. -/
theorem disposable_overrides_mx_counterexample :
    (EV.classify_email (fun _ => true) (fun d => d) (fun _ => [])
        (fun _ _ => "unknown") true true (fun _ => none) false
        "a@mailinator.com").result
      = some ⟨"a@mailinator.com", "risky", "disposable", "unknown"⟩
    ∧ ("risky" : String) ≠ "bad" ∧ ("disposable" : String) ≠ "no-mx" :=
  ⟨by decide, by decide, by decide⟩

/-- C1 amended: in the app classifier (`src/app/verify_lib.py`) a
disposable domain only records the reason `disposable-domain` and
continues: with an empty MX record the verdict is `bad` with reasons
`[disposable-domain, no-mx-record]`, and with MX present it is `risky`
with `[disposable-domain]`.  In the CLI classifier
(`src/email_verifier.py`) a disposable domain is by itself a terminal
`risky`/`disposable` verdict reached before the MX step, whatever the MX
map holds. -/
theorem disposable_not_terminal_amended
    (ext : String → String) (resolve : String → Option (List String))
    (valid : String → Bool) (mx : String → List String)
    (probe : String → String → String) (db : EV.Cache) (premium : Bool)
    (email d : String)
    (hsyn : VL.is_syntax_valid (Py.lower (Py.strip email)) = true)
    (hdV : VL.domain_from_email (Py.lower (Py.strip email)) = some d)
    (hdisp : VL.is_disposable_domain ext d = true) :
    (VL.has_mx_record resolve d = false →
       VL.classify_email ext resolve email =
         some ⟨Py.lower (Py.strip email), "bad",
               ["disposable-domain", "no-mx-record"]⟩)
    ∧ (VL.has_mx_record resolve d = true →
       VL.classify_email ext resolve email =
         some ⟨Py.lower (Py.strip email), "risky", ["disposable-domain"]⟩)
    ∧ (∀ (_ : valid (Py.strip (Py.lower email)) = true)
         (_ : db (Py.strip (Py.lower email)) = none)
         (_ : EV.domain_from_email (Py.strip (Py.lower email)) = some d)
         (_ : EV.is_disposable ext d = true),
       (EV.classify_email valid ext mx probe true true db premium email).result
         = some ⟨Py.strip (Py.lower email), "risky", "disposable", "unknown"⟩) := by
  refine ⟨?_, ?_, ?_⟩
  · intro hmx
    simp [VL.classify_email, hsyn, hdV, hdisp, hmx]
  · intro hmx
    simp [VL.classify_email, hsyn, hdV, hdisp, hmx]
  · intro hv hdb hdE hdispE
    simp [EV.classify_email, EV.read_cache, hdb, hv, hdE, hdispE]

/-- Witness for the amended C1 theorem on `x@mailinator.com` (the
`tldextract` oracle maps the registrable domain to itself). -/
theorem disposable_not_terminal_amended_witness :
    VL.classify_email (fun d => d) (fun _ => none) "x@mailinator.com" =
      some ⟨"x@mailinator.com", "bad", ["disposable-domain", "no-mx-record"]⟩
    ∧ VL.classify_email (fun d => d) (fun _ => some ["mx.m.com"])
        "x@mailinator.com" =
      some ⟨"x@mailinator.com", "risky", ["disposable-domain"]⟩
    ∧ (EV.classify_email (fun _ => true) (fun d => d) (fun _ => [])
        (fun _ _ => "unknown") true true (fun _ => none) false
        "x@mailinator.com").result
      = some ⟨"x@mailinator.com", "risky", "disposable", "unknown"⟩ :=
  ⟨(disposable_not_terminal_amended (fun d => d) (fun _ => none)
      (fun _ => true) (fun _ => []) (fun _ _ => "unknown") (fun _ => none)
      false "x@mailinator.com" "mailinator.com" (by decide) (by decide)
      (by decide)).1 (by decide),
   (disposable_not_terminal_amended (fun d => d) (fun _ => some ["mx.m.com"])
      (fun _ => true) (fun _ => []) (fun _ _ => "unknown") (fun _ => none)
      false "x@mailinator.com" "mailinator.com" (by decide) (by decide)
      (by decide)).2.1 (by decide),
   (disposable_not_terminal_amended (fun d => d) (fun _ => none)
      (fun _ => true) (fun _ => []) (fun _ _ => "unknown") (fun _ => none)
      false "x@mailinator.com" "mailinator.com" (by decide) (by decide)
      (by decide)).2.2 (by decide) (by decide) (by decide) (by decide)⟩

/-- C3 counterexample: in the CLI classifier with the deeper check
disabled, an address with valid syntax, a non-disposable domain and a
non-empty MX record is classified `good` with reason `syntax+mx`, not
`risky`/`inconclusive` as the claim states. -/
theorem free_mode_good_counterexample :
    (EV.classify_email (fun _ => true) (fun d => d)
        (fun _ => ["mx.example.com"]) (fun _ _ => "unknown") true true
        (fun _ => none) false "user@example.com").result
      = some ⟨"user@example.com", "good", "syntax+mx", "unknown"⟩
    ∧ ("good" : String) ≠ "risky"
    ∧ ("syntax+mx" : String) ≠ "inconclusive" :=
  ⟨by decide, by decide, by decide⟩

/-- C3 amended: with the deeper check disabled, a syntactically valid
address on a non-disposable domain with a non-empty MX record is
classified `risky` with reason `inconclusive` by the app classifier
(`src/app/verify_lib.py`, which has no probe at all), while the CLI
classifier (`src/email_verifier.py` with `premium=False`) instead
returns `good` with reason `syntax+mx`; in both pipelines no SMTP probe
is attempted. -/
theorem free_mode_amended
    (ext : String → String) (resolve : String → Option (List String))
    (valid : String → Bool) (mx : String → List String)
    (probe : String → String → String) (db : EV.Cache)
    (email d : String)
    (hsyn : VL.is_syntax_valid (Py.lower (Py.strip email)) = true)
    (hdV : VL.domain_from_email (Py.lower (Py.strip email)) = some d)
    (hndV : VL.is_disposable_domain ext d = false)
    (hmxV : VL.has_mx_record resolve d = true) :
    VL.classify_email ext resolve email =
      some ⟨Py.lower (Py.strip email), "risky", ["inconclusive"]⟩
    ∧ (∀ (_ : valid (Py.strip (Py.lower email)) = true)
         (_ : db (Py.strip (Py.lower email)) = none)
         (_ : EV.domain_from_email (Py.strip (Py.lower email)) = some d)
         (_ : EV.is_disposable ext d = false)
         (mh : String) (mt : List String), mx d = mh :: mt →
       (EV.classify_email valid ext mx probe true true db false email).result
         = some ⟨Py.strip (Py.lower email), "good", "syntax+mx", "unknown"⟩
       ∧ (EV.classify_email valid ext mx probe true true db false email).effs
         = []) := by
  refine ⟨?_, ?_⟩
  · simp [VL.classify_email, hsyn, hdV, hndV, hmxV]
  · intro hv hdb hdE hndE mh mt hmx
    refine ⟨?_, ?_⟩ <;>
      simp [EV.classify_email, EV.read_cache, hdb, hv, hdE, hndE, hmx]

/-- Witness for the amended C3 theorem on `user@example.com` with one
mail exchanger. -/
theorem free_mode_amended_witness :
    VL.classify_email (fun d => d) (fun _ => some ["mx.example.com"])
        "user@example.com" =
      some ⟨"user@example.com", "risky", ["inconclusive"]⟩
    ∧ (EV.classify_email (fun _ => true) (fun d => d)
        (fun _ => ["mx.example.com"]) (fun _ _ => "unknown") true true
        (fun _ => none) false "user@example.com").result
      = some ⟨"user@example.com", "good", "syntax+mx", "unknown"⟩ :=
  ⟨(free_mode_amended (fun d => d) (fun _ => some ["mx.example.com"])
      (fun _ => true) (fun _ => ["mx.example.com"]) (fun _ _ => "unknown")
      (fun _ => none) "user@example.com" "example.com" (by decide)
      (by decide) (by decide) (by decide)).1,
   ((free_mode_amended (fun d => d) (fun _ => some ["mx.example.com"])
      (fun _ => true) (fun _ => ["mx.example.com"]) (fun _ _ => "unknown")
      (fun _ => none) "user@example.com" "example.com" (by decide)
      (by decide) (by decide) (by decide)).2 (by decide) (by decide)
      (by decide) (by decide) "mx.example.com" [] (by decide)).1⟩

/-- C4 counterexample: for the syntactically invalid input
`"notanemail"`, the CLI classifier returns reason `invalid`, not the
claimed `invalid-syntax` (the app classifier does use `invalid-syntax`,
so the two pipelines even disagree on the reason code). -/
theorem invalid_reason_counterexample :
    (EV.classify_email (fun _ => false) (fun d => d) (fun _ => [])
        (fun _ _ => "unknown") true true (fun _ => none) false
        "notanemail").result
      = some ⟨"notanemail", "bad", "invalid", "inactive"⟩
    ∧ VL.classify_email (fun d => d) (fun _ => none) "notanemail"
      = some ⟨"notanemail", "bad", ["invalid-syntax"]⟩
    ∧ ("invalid" : String) ≠ "invalid-syntax" :=
  ⟨by decide, by decide, by decide⟩

/-- C4 amended: a syntactically invalid string not in the verdict cache
is classified `bad` by both pipelines without consulting the network —
the result is independent of the DNS and probe oracles (they are
arbitrary here and absent from the conclusion) and the effect trace is
empty — but the reason code is `invalid-syntax` only in the app
classifier; the CLI classifier writes `invalid`. -/
theorem invalid_syntax_amended
    (ext : String → String) (resolve : String → Option (List String))
    (valid : String → Bool) (mx : String → List String)
    (probe : String → String → String) (db : EV.Cache) (premium : Bool)
    (email : String)
    (hsyn : VL.is_syntax_valid (Py.lower (Py.strip email)) = false) :
    VL.classify_email ext resolve email =
      some ⟨Py.lower (Py.strip email), "bad", ["invalid-syntax"]⟩
    ∧ (∀ (_ : valid (Py.strip (Py.lower email)) = false)
         (_ : db (Py.strip (Py.lower email)) = none),
       (EV.classify_email valid ext mx probe true true db premium email).result
         = some ⟨Py.strip (Py.lower email), "bad", "invalid", "inactive"⟩
       ∧ (EV.classify_email valid ext mx probe true true db premium email).effs
         = []) := by
  refine ⟨?_, ?_⟩
  · simp [VL.classify_email, hsyn]
  · intro hv hdb
    refine ⟨?_, ?_⟩ <;>
      simp [EV.classify_email, EV.read_cache, hdb, hv]

/-- Witness for the amended C4 theorem on `"notanemail"`. -/
theorem invalid_syntax_amended_witness :
    VL.classify_email (fun d => d) (fun _ => none) "notanemail" =
      some ⟨"notanemail", "bad", ["invalid-syntax"]⟩
    ∧ (EV.classify_email (fun _ => false) (fun d => d) (fun _ => [])
        (fun _ _ => "unknown") true true (fun _ => none) false
        "notanemail").result
      = some ⟨"notanemail", "bad", "invalid", "inactive"⟩ :=
  ⟨(invalid_syntax_amended (fun d => d) (fun _ => none) (fun _ => false)
      (fun _ => []) (fun _ _ => "unknown") (fun _ => none) false
      "notanemail" (by decide)).1,
   ((invalid_syntax_amended (fun d => d) (fun _ => none) (fun _ => false)
      (fun _ => []) (fun _ _ => "unknown") (fun _ => none) false
      "notanemail" (by decide)).2 (by decide) (by decide)).1⟩

/-- C5: classification is idempotent under the verdict cache.  If a
first `classify_email` call (cache reads and writes working) returned a
verdict row, a second call on the same address against the resulting
cache returns the identical row, performs no SMTP probe (empty effect
trace), and its outcome does not depend on the MX map or the prober (both
are arbitrary fresh oracles here). -/
theorem classify_email_idempotent
    (valid : String → Bool) (ext : String → String)
    (mx mx' : String → List String) (probe probe' : String → String → String)
    (db : EV.Cache) (premium : Bool) (email0 : String) (row : EV.Row)
    (h : (EV.classify_email valid ext mx probe true true db premium email0).result
         = some row) :
    (EV.classify_email valid ext mx' probe' true true
        (EV.classify_email valid ext mx probe true true db premium email0).cache
        premium email0).result = some row
    ∧ (EV.classify_email valid ext mx' probe' true true
        (EV.classify_email valid ext mx probe true true db premium email0).cache
        premium email0).effs = [] := by
  simp only [EV.classify_email, EV.read_cache, EV.write_cache, if_true] at h ⊢
  rcases hdb : db (Py.strip (Py.lower email0)) with _ | c
  · simp only [hdb] at h ⊢
    cases hv : valid (Py.strip (Py.lower email0))
    · simp [hv] at h ⊢
      exact h
    · simp only [hv] at h ⊢
      rcases hd : EV.domain_from_email (Py.strip (Py.lower email0)) with _ | d
      · simp [hd] at h
      · simp only [hd] at h ⊢
        cases hdisp : EV.is_disposable ext d
        · simp only [hdisp] at h ⊢
          rcases hmx : mx d with _ | ⟨mh, mt⟩
          · simp [hmx] at h ⊢
            exact h
          · simp only [hmx] at h ⊢
            cases premium
            · simp at h ⊢
              exact h
            · by_cases hst : probe mh (Py.strip (Py.lower email0)) = "active"
              · simp [hst] at h ⊢
                exact h
              · by_cases hst2 : probe mh (Py.strip (Py.lower email0)) = "inactive"
                · simp [hst, hst2] at h ⊢
                  exact h
                · simp [hst, hst2] at h ⊢
                  exact h
        · simp [hdisp] at h ⊢
          exact h
  · simp only [hdb] at h ⊢
    exact ⟨h, trivial⟩

/-- Witness for the C5 theorem: `user@example.com` classified twice in
free mode; the second call reproduces the `good`/`syntax+mx` row. -/
theorem classify_email_idempotent_witness :
    (EV.classify_email (fun _ => true) (fun d => d)
        (fun _ => ["other.example.net"]) (fun _ _ => "active") true true
        (EV.classify_email (fun _ => true) (fun d => d)
          (fun _ => ["mx.example.com"]) (fun _ _ => "unknown") true true
          (fun _ => none) false "user@example.com").cache
        false "user@example.com").result
      = some ⟨"user@example.com", "good", "syntax+mx", "unknown"⟩
    ∧ (EV.classify_email (fun _ => true) (fun d => d)
        (fun _ => ["other.example.net"]) (fun _ _ => "active") true true
        (EV.classify_email (fun _ => true) (fun d => d)
          (fun _ => ["mx.example.com"]) (fun _ _ => "unknown") true true
          (fun _ => none) false "user@example.com").cache
        false "user@example.com").effs = [] :=
  classify_email_idempotent (fun _ => true) (fun d => d)
    (fun _ => ["mx.example.com"]) (fun _ => ["other.example.net"])
    (fun _ _ => "unknown") (fun _ _ => "active") (fun _ => none) false
    "user@example.com" ⟨"user@example.com", "good", "syntax+mx", "unknown"⟩
    (by decide)

/-- C10: verdict-store failures never abort classification.  A failing
cache read behaves exactly like a read against an empty cache (the
pipeline proceeds and produces the same result and effect trace), a
failing cache write leaves the returned verdict and effect trace
unchanged relative to a successful one, and with failing writes the
store itself is left untouched. -/
theorem cache_failure_never_aborts
    (valid : String → Bool) (ext : String → String)
    (mx : String → List String) (probe : String → String → String)
    (db : EV.Cache) (premium : Bool) (email0 : String) :
    ((EV.classify_email valid ext mx probe false true db premium email0).result
      = (EV.classify_email valid ext mx probe true true (fun _ => none)
          premium email0).result)
    ∧ ((EV.classify_email valid ext mx probe false true db premium email0).effs
      = (EV.classify_email valid ext mx probe true true (fun _ => none)
          premium email0).effs)
    ∧ ((EV.classify_email valid ext mx probe true false db premium email0).result
      = (EV.classify_email valid ext mx probe true true db premium email0).result)
    ∧ ((EV.classify_email valid ext mx probe true false db premium email0).effs
      = (EV.classify_email valid ext mx probe true true db premium email0).effs)
    ∧ (∀ rOk, (EV.classify_email valid ext mx probe rOk false db premium
          email0).cache = db) := by
  refine ⟨(classify_store_independent valid ext mx probe false true true true
      db (fun _ => none) premium email0 rfl).1,
    (classify_store_independent valid ext mx probe false true true true
      db (fun _ => none) premium email0 rfl).2,
    (classify_store_independent valid ext mx probe true false true true
      db db premium email0 rfl).1,
    (classify_store_independent valid ext mx probe true false true true
      db db premium email0 rfl).2, ?_⟩
  intro rOk
  simp only [EV.classify_email]
  cases h : EV.read_cache rOk db (Py.strip (Py.lower email0)) with
  | none =>
    simp only [h]
    have hw : ∀ e c, EV.write_cache false db e c = db := fun _ _ => rfl
    repeat' (first | rfl | (simp only [hw]) | split)
  | some c => simp [h]

/-- C6: batch progress invariant.  For a found input, the orchestrator's
progress trace starts at the upload-initialised state, then publishes a
state whose `total` is the deduplicated address count with `done = 0`
(before any completion), increments `done` by exactly one per completed
address (one published state per address, consecutive states differing
by one), keeps `done ≤ total` and the `running` status throughout the
loop, and the terminal state appended at the `done` transition has
`status = "done"` with `done = total =` the deduplicated count. -/
theorem progress_invariant (emails0 : List String) :
    BE.run_verifier emails0 true
      = BE.initProgress :: BE.run_verification_progress emails0 BE.initProgress
          ++ [{ done := (BE.dedup emails0).length,
                total := (BE.dedup emails0).length,
                status := "done", error := none }]
    ∧ (BE.run_verification_progress emails0 BE.initProgress).head? =
        some { done := 0, total := (BE.dedup emails0).length,
               status := "running", error := none }
    ∧ (BE.run_verification_progress emails0 BE.initProgress).length
        = (BE.dedup emails0).length + 1
    ∧ List.Chain' (fun a b : BE.JobProgress => b.done = a.done + 1)
        (BE.run_verification_progress emails0 BE.initProgress)
    ∧ (∀ s ∈ BE.run_verification_progress emails0 BE.initProgress,
        s.total = (BE.dedup emails0).length ∧ s.done ≤ s.total
          ∧ s.status = "running") := by
  refine ⟨?_, ?_, ?_, ?_, ?_⟩
  · simp [BE.run_verifier, BE.run_verification_progress, loopFinal_done,
      BE.initProgress]
  · simp [BE.run_verification_progress, BE.initProgress]
  · simp [BE.run_verification_progress, loopStates_length]
  · simp only [BE.run_verification_progress]
    exact loopStates_chain _ _
  · intro s hs
    simp only [BE.run_verification_progress, List.mem_cons] at hs
    rcases hs with rfl | hs
    · exact ⟨rfl, by simp [BE.initProgress], rfl⟩
    · obtain ⟨h1, h2, h3, h4⟩ := loopStates_mem _ _ s hs
      simp [BE.initProgress] at h1 h2 h3
      exact ⟨h1, by omega, h3⟩

/-- Witness for the C6 theorem on a three-element input with one
duplicate: the trace is evaluated in full and a mid-loop state is checked
against the membership invariant. -/
theorem progress_invariant_witness :
    BE.run_verifier ["a@b.co", "a@b.co", "c@d.co"] true
      = [⟨0, 0, "running", none⟩, ⟨0, 2, "running", none⟩,
         ⟨1, 2, "running", none⟩, ⟨2, 2, "running", none⟩,
         ⟨2, 2, "done", none⟩]
    ∧ ((⟨1, 2, "running", none⟩ : BE.JobProgress).total = 2
        ∧ (⟨1, 2, "running", none⟩ : BE.JobProgress).done
            ≤ (⟨1, 2, "running", none⟩ : BE.JobProgress).total
        ∧ (⟨1, 2, "running", none⟩ : BE.JobProgress).status = "running") :=
  ⟨by decide,
   (progress_invariant ["a@b.co", "a@b.co", "c@d.co"]).2.2.2.2
      ⟨1, 2, "running", none⟩ (by decide)⟩
